import Mathlib

/-!
Verification development for the AI-lawsuit monitoring pipeline
(`src/run.py`, `src/courtlistener.py`, `src/render.py`, `src/github_issue.py`).

The Python sources are shallowly embedded: dictionaries become association
lists over an inductive `PyVal` type, HTTP calls become an explicit
`HttpOutcome` fed through an environment record, and code that Python could
raise in is modelled with `Except`/`Option`.  Machine-level details that no
statement below depends on (Unicode `str.isdigit` beyond ASCII, `repr` of
containers, sub-day timestamp resolution) are deliberately modelled at the
granularity noted next to each definition.
-/

/-! ## Python string primitives -/

/-- Characters treated as whitespace by Python `str.strip()` (ASCII range). -/
def isPySpace (c : Char) : Bool :=
  c = ' ' || c = '\t' || c = '\n' || c = '\r' || c = '\x0b' || c = '\x0c'

/-- Python `str.strip()`. -/
def pyStrip (s : String) : String :=
  ⟨((s.data.dropWhile isPySpace).reverse.dropWhile isPySpace).reverse⟩

/-- Python `str.lower()` (ASCII letters; the Korean text in this code base is
unaffected by lowercasing). -/
def pyLower (s : String) : String := ⟨s.data.map Char.toLower⟩

/-- Python `s[:n]` on strings (by code point). -/
def pyTake (n : Nat) (s : String) : String := ⟨s.data.take n⟩

/-- Substring test on character lists: does `pat` occur inside the list? -/
def listSub (pat : List Char) : List Char → Bool
  | [] => pat.isEmpty
  | c :: cs => pat.isPrefixOf (c :: cs) || listSub pat cs

/-- Python `pat in hay` on strings. -/
def strContains (hay pat : String) : Bool := listSub pat.data hay.data

/-- Python `s.startswith(pat)`. -/
def pyStartsWith (s pat : String) : Bool := pat.data.isPrefixOf s.data

/-- Python `s.endswith(pat)`. -/
def pyEndsWith (s pat : String) : Bool := pat.data.isSuffixOf s.data

/-- Python `str.replace` on char lists: left-to-right, non-overlapping.
The fuel argument (a bound on the list length, decremented every step)
keeps the recursion structural so that the function reduces in the kernel.
An empty pattern leaves the list unchanged (the sources never pass one). -/
def replaceLAux (pat repl : List Char) : Nat → List Char → List Char
  | _, [] => []
  | 0, l => l
  | fuel + 1, c :: cs =>
    if pat ≠ [] ∧ pat.isPrefixOf (c :: cs) then
      repl ++ replaceLAux pat repl fuel (List.drop (pat.length - 1) cs)
    else
      c :: replaceLAux pat repl fuel cs

/-- Python `str.replace` on char lists. -/
def replaceL (pat repl l : List Char) : List Char :=
  replaceLAux pat repl l.length l

/-- Python `s.replace(pat, repl)`. -/
def pyReplace (s pat repl : String) : String := ⟨replaceL pat.data repl.data s.data⟩

/-- Python `"x" * n` style repetition of a string. -/
def strRepeat (s : String) (n : Nat) : String := ⟨(List.replicate n s.data).flatten⟩

/-- Python `a or b` specialised to strings: `a` when non-empty, else `b`. -/
def pyOrS (a b : String) : String := if a = "" then b else a

/-- Python `str.splitlines` (handles `\r\n`, `\r` and `\n`; no trailing
empty line). `cur` holds the characters of the current line in reverse. -/
def pySplitlinesAux (cur : List Char) : List Char → List String
  | [] => if cur.isEmpty then [] else [⟨cur.reverse⟩]
  | '\r' :: '\n' :: rest => (⟨cur.reverse⟩ : String) :: pySplitlinesAux [] rest
  | '\r' :: rest => (⟨cur.reverse⟩ : String) :: pySplitlinesAux [] rest
  | '\n' :: rest => (⟨cur.reverse⟩ : String) :: pySplitlinesAux [] rest
  | c :: rest => pySplitlinesAux (c :: cur) rest

/-- Python `s.splitlines()`. -/
def pySplitlines (s : String) : List String := pySplitlinesAux [] s.data

/-- Python `s.split("\n")` (keeps empty pieces, `""` gives `[""]`). -/
def splitNlAux (cur : List Char) : List Char → List String
  | [] => [⟨cur.reverse⟩]
  | '\n' :: rest => (⟨cur.reverse⟩ : String) :: splitNlAux [] rest
  | c :: rest => splitNlAux (c :: cur) rest

/-- Python `s.split("\n")`. -/
def splitNl (s : String) : List String := splitNlAux [] s.data

/-- Stable insertion used by `sortDesc`: `x` goes in front of the first
element strictly below it, hence after earlier elements with an equal key. -/
def insDesc (lt : α → α → Bool) (x : α) : List α → List α
  | [] => [x]
  | y :: ys => if lt y x then x :: y :: ys else y :: insDesc lt x ys

/-- Python `sorted(l, key=…, reverse=True)`: stable descending sort. -/
def sortDesc (lt : α → α → Bool) (l : List α) : List α :=
  l.foldl (fun acc x => insDesc lt x acc) []

/-! ## Python values and dictionaries -/

/-- JSON-ish Python values as they flow through the pipeline. -/
inductive PyVal where
  | vNone : PyVal
  | vInt (n : Int) : PyVal
  | vStr (s : String) : PyVal
  | vDict (fields : List (String × PyVal)) : PyVal
  | vList (elems : List PyVal) : PyVal

/-- Python `dict.get(k)` on an association list (`None` when absent;
first binding wins, as the JSON decoder never produces duplicates). -/
def dget (d : List (String × PyVal)) (k : String) : PyVal :=
  match d.find? (fun p => p.1 == k) with
  | some p => p.2
  | none => PyVal.vNone

/-- Python `v.get(k)` where `v` should be a dict (the sources only call
`.get` on decoded JSON objects; other shapes never reach these calls). -/
def vget (v : PyVal) (k : String) : PyVal :=
  match v with
  | .vDict d => dget d k
  | _ => .vNone

/-- Python truthiness for the value shapes above. -/
def pyTruthy : PyVal → Bool
  | .vNone => false
  | .vInt n => n != 0
  | .vStr s => s ≠ ""
  | .vDict d => !d.isEmpty
  | .vList l => !l.isEmpty

/-- Python `a or b` on values. -/
def pyOr (a b : PyVal) : PyVal := if pyTruthy a then a else b

/-- Python `str(v)` for the shapes that actually reach it in the sources
(strings and ints; container `repr` is not modelled and never reached). -/
def pyStr : PyVal → String
  | .vStr s => s
  | .vInt n => toString n
  | .vNone => "None"
  | .vDict _ => ""
  | .vList _ => ""

/-- Python first-truthy-of-a-list of values, rendered as a string
(used for `a or b or c` chains whose operands are strings). -/
def orStr : List PyVal → String
  | [] => ""
  | v :: rest => if pyTruthy v then pyStr v else orStr rest

/-! ## Python dict built by repeated insertion (`{key(x): x for x in l}`) -/

section PyDictMerge

variable {α : Type} {κ : Type} [DecidableEq κ]

/-- Insert into an insertion-ordered dict: replacing a present key keeps its
position, a new key is appended (CPython dict semantics). -/
def dictInsert (k : κ) (v : α) : List (κ × α) → List (κ × α)
  | [] => [(k, v)]
  | p :: rest => if p.1 = k then (k, v) :: rest else p :: dictInsert k v rest

/-- Keys of the dict, in insertion order. -/
def dictKeys (d : List (κ × α)) : List κ := d.map Prod.fst

/-- Lookup in the association-list dict. -/
def dictLookup (k : κ) : List (κ × α) → Option α
  | [] => none
  | p :: rest => if p.1 = k then some p.2 else dictLookup k rest

/-- The dict `{key(x): x for x in l}` built left to right. -/
def dictOf (key : α → κ) (l : List α) : List (κ × α) :=
  l.foldl (fun d x => dictInsert (key x) x d) []

/-- `list({key(x): x for x in l}.values())`: one survivor per key,
last write wins, first-occurrence key order. -/
def pyDedupValues (key : α → κ) (l : List α) : List α :=
  (dictOf key l).map Prod.snd

end PyDictMerge

/-! ## Data model (`src/courtlistener.py` dataclasses, spec §3 Lawsuit shape) -/

/-- The `CLDocument` dataclass of `src/courtlistener.py`. -/
structure CLDocument where
  docket_id : Option Int
  docket_number : String
  case_name : String
  court : String
  date_filed : String
  doc_type : String
  doc_number : String
  description : String
  document_url : String
  pdf_url : String
  pdf_text_snippet : String
  extracted_plaintiff : String
  extracted_defendant : String
  extracted_causes : String
  extracted_ai_snippet : String
deriving DecidableEq

/-- The `CLCaseSummary` dataclass of `src/courtlistener.py`. -/
structure CLCaseSummary where
  docket_id : Int
  case_name : String
  docket_number : String
  court : String
  date_filed : String
  status : String
  judge : String
  magistrate : String
  nature_of_suit : String
  cause : String
  parties : String
  complaint_doc_no : String
  complaint_link : String
  recent_updates : String
  extracted_causes : String
  extracted_ai_snippet : String
deriving DecidableEq

/-- Modelled from the spec: the `Lawsuit` dataclass lives in `extract.py`,
which is not under `src/`; spec §3 gives its shape (news-derived record with
case title/number, parties, dates, article title and URLs, history). -/
structure Lawsuit where
  case_title : String
  case_number : String
  reason : String
  plaintiff : String
  defendant : String
  country : String
  court : String
  filed_date : String
  updated_date : String
  article_title : String
  article_urls : List String
  history : String
deriving DecidableEq

/-! ## HTTP boundary (`src/courtlistener.py`) -/

/-- Outcome of one `requests.get` call: a raised exception (network error,
timeout …) or a response with a status code and an optional decoded JSON
body (`none` meaning `r.json()` raises). -/
inductive HttpOutcome where
  | exn : HttpOutcome
  | resp (status : Nat) (body : Option PyVal) : HttpOutcome

/-- Python `Response.raise_for_status()`: raises for 4xx/5xx statuses. -/
def raise_for_status (st : Nat) : Except String Unit :=
  if 400 ≤ st ∧ st < 600 then .error ("HTTPError " ++ toString st) else .ok ()

/-- Body of the `try` block of `_get` (`src/courtlistener.py:73-81`):
401/403 return `None`, other non-success statuses raise, a missing or
undecodable body raises. -/
def _getTry (o : HttpOutcome) : Except String (Option PyVal) :=
  match o with
  | .exn => .error "RequestException"
  | .resp st body =>
    if st = 401 ∨ st = 403 then .ok none
    else
      match raise_for_status st with
      | .error e => .error e
      | .ok _ =>
        match body with
        | none => .error "JSONDecodeError"
        | some v => .ok (some v)

/-- The whole of `_get`: the `except Exception: return None` handler turns
every raised error into `None`. -/
def _get (o : HttpOutcome) : Option PyVal :=
  match _getTry o with
  | .ok v => v
  | .error _ => none

/-- Base URL constants of `src/courtlistener.py`. -/
def BASE : String := "https://www.courtlistener.com"

/-- Search endpoint (`SEARCH_URL`). -/
def SEARCH_URL : String := BASE ++ "/api/rest/v4/search/"

/-- Docket endpoint for a given id (`DOCKET_URL.format(id=…)`). -/
def docket_url_for (id : Int) : String :=
  BASE ++ "/api/rest/v4/dockets/" ++ toString id ++ "/"

/-- RECAP documents endpoint (`RECAP_DOCS_URL`). -/
def RECAP_DOCS_URL : String := BASE ++ "/api/rest/v4/recap-documents/"

/-- The external collaborators of the fetching code, passed explicitly:
the HTTP transport keyed by URL and query parameters, the PDF text
extractor and the complaint parsers (`pdf_text.py` / `complaint_parse.py`
are collaborator modules, spec §4.3/§6), the clock and the date parser.
Times are modelled at day granularity as integers. -/
structure Env where
  http : String → List (String × String) → HttpOutcome
  extract_pdf_text : String → Nat → String
  extract_parties_from_caption : String → String × String
  detect_causes : String → List String
  extract_ai_training_snippet : String → String
  now_day : Int
  parse_iso_date : String → Option Int
  today_iso : String

/-- `_get` against a concrete environment. -/
def env_get (env : Env) (url : String) (params : List (String × String)) :
    Option PyVal :=
  _get (env.http url params)

/-! ## courtlistener helpers -/

/-- `_abs_url` (`src/courtlistener.py:83-90`). -/
def _abs_url (u : String) : String :=
  if u = "" then ""
  else if pyStartsWith u "http" then u
  else if pyStartsWith u "/" then BASE ++ u
  else u

/-- `_safe_str` (`src/courtlistener.py:130-131`). -/
def _safe_str (x : PyVal) : String :=
  match x with
  | .vNone => ""
  | v => pyStrip (pyStr v)

/-- Python `str.isdigit` (ASCII digits; Unicode digit classes that make
`isdigit` true but `int()` fail are outside this model). -/
def pyIsDigitStr (s : String) : Bool := s ≠ "" && s.data.all Char.isDigit

/-- Value of an ASCII digit string. -/
def digitsToNat (s : String) : Nat :=
  s.data.foldl (fun a c => a * 10 + (c.toNat - 48)) 0

/-- Python `int(x)` for the shapes reaching it (`None` = raise): ints pass
through, strings are stripped and parsed as an optionally signed digit run. -/
def pyIntCoerce : PyVal → Option Int
  | .vInt n => some n
  | .vStr s =>
    let t := pyStrip s
    if pyIsDigitStr t then some (digitsToNat t : Int)
    else
      match t.data with
      | '-' :: rest => if rest ≠ [] ∧ rest.all Char.isDigit then
          some (-(digitsToNat ⟨rest⟩ : Int)) else none
      | '+' :: rest => if rest ≠ [] ∧ rest.all Char.isDigit then
          some (digitsToNat ⟨rest⟩ : Int) else none
      | _ => none
  | _ => none

/-- Alias loop of `_pick_docket_id` (`src/courtlistener.py:114-128`): for
each candidate key, an int is returned as is, a digit string is converted,
a dict containing `"id"` has `int(v["id"])` tried with failures swallowed;
anything else falls through to the next alias. -/
def pickFrom (hit : PyVal) : List String → Option Int
  | [] => none
  | k :: ks =>
    match vget hit k with
    | .vInt n => some n
    | .vStr s => if pyIsDigitStr s then some (digitsToNat s : Int) else pickFrom hit ks
    | .vDict d =>
      if (d.find? (fun p => p.1 == "id")).isSome then
        match pyIntCoerce (dget d "id") with
        | some n => some n
        | none => pickFrom hit ks
      else pickFrom hit ks
    | _ => pickFrom hit ks

/-- `_pick_docket_id` (`src/courtlistener.py:114-128`). -/
def _pick_docket_id (hit : PyVal) : Option Int :=
  pickFrom hit ["docket_id", "docketId", "docket"]

/-- `fetch_docket` (`src/courtlistener.py:133-134`). -/
def fetch_docket (env : Env) (docket_id : Int) : Option PyVal :=
  env_get env (docket_url_for docket_id) []

/-- `list_recap_documents` (`src/courtlistener.py:136-140`):
`data.get("results", []) or []` on the fetched page. -/
def list_recap_documents (env : Env) (docket_id : Int) (page_size : Nat) :
    List PyVal :=
  match env_get env RECAP_DOCS_URL
      [("docket", toString docket_id), ("page_size", toString page_size)] with
  | none => []
  | some v =>
    if pyTruthy v then
      match vget v "results" with
      | .vList l => l
      | _ => []
    else []

/-- `COMPLAINT_KEYWORDS` (`src/courtlistener.py:19-24`). -/
def COMPLAINT_KEYWORDS : List String :=
  ["complaint", "amended complaint", "petition", "class action complaint"]

/-- `_is_complaint` (`src/courtlistener.py:155-157`). -/
def _is_complaint (doc : PyVal) : Bool :=
  let hay := pyLower (_safe_str (vget doc "description") ++ " "
      ++ _safe_str (vget doc "document_type"))
  COMPLAINT_KEYWORDS.any (fun k => strContains hay k)

/-- Candidate PDF field names of `_extract_pdf_url`. -/
def pdf_url_keys : List String :=
  ["filepath_local", "filepathLocal", "download_url", "downloadUrl",
   "file", "pdf_url", "pdfUrl"]

/-- First key in `keys` whose value is a non-empty string
(`isinstance(v, str) and v`). -/
def firstStrVal (d : PyVal) : List String → Option String
  | [] => none
  | k :: ks =>
    match vget d k with
    | .vStr s => if s ≠ "" then some s else firstStrVal d ks
    | _ => firstStrVal d ks

/-- `_extract_pdf_url` (`src/courtlistener.py:159-168`). -/
def _extract_pdf_url (doc : PyVal) : String :=
  match firstStrVal doc pdf_url_keys with
  | some s => _abs_url s
  | none => _abs_url (orStr [vget doc "absolute_url", vget doc "url", .vStr ""])

/-- The PDF-looking-URL guard plus extraction of
`build_complaint_documents_from_hits` (`src/courtlistener.py:200-203`):
extraction runs only when the URL resembles a PDF, else the snippet is `""`. -/
def pdf_snippet (env : Env) (doc : PyVal) : String :=
  let pdf_url := _extract_pdf_url doc
  if pdf_url ≠ "" ∧ (pyEndsWith (pyLower pdf_url) ".pdf"
      ∨ strContains (pyLower pdf_url) "pdf") then
    env.extract_pdf_text pdf_url 3500
  else ""

/-- Sort key `_safe_str(x.get("date_filed") or x.get("dateFiled"))` used on
raw RECAP documents. -/
def raw_date_key (d : PyVal) : String :=
  _safe_str (pyOr (vget d "date_filed") (vget d "dateFiled"))

/-! ## search and document building (`src/courtlistener.py`) -/

/-- `search_recent_documents` (`src/courtlistener.py:92-112`): fetch one
search page, return `[]` on a falsy response, then drop results whose
parseable date lies before `now - days` (parse failures keep the record). -/
def search_recent_documents (env : Env) (q : String) (days : Nat)
    (max_results : Nat) : List PyVal :=
  match env_get env SEARCH_URL
      [("q", q), ("type", "r"), ("available_only", "on"),
       ("order_by", "entry_date_filed desc"),
       ("page_size", toString max_results)] with
  | none => []
  | some data =>
    if pyTruthy data then
      let results := match vget data "results" with
        | .vList l => l
        | _ => []
      let cutoff := env.now_day - (days : Int)
      results.filter (fun it =>
        let date_val := pyOr (vget it "dateFiled") (pyOr (vget it "date_filed")
          (pyOr (vget it "dateCreated") (vget it "date_created")))
        if pyTruthy date_val then
          match env.parse_iso_date (pyTake 10 (pyStr date_val)) with
          | some dt => decide (cutoff ≤ dt)
          | none => true
        else true)
    else []

/-- Per-document body of the loop in `build_complaint_documents_from_hits`
(`src/courtlistener.py:191-226`): field population for one raw RECAP
document `d`, including the `"미확인"` / `""` fallbacks. -/
def build_one_doc (env : Env) (docket_id : Int)
    (docket_number case_name court : String) (d : PyVal) : CLDocument :=
  let doc_type := _safe_str (pyOr (vget d "document_type")
      (pyOr (vget d "documentType") (.vStr "")))
  let doc_number := _safe_str (pyOr (vget d "document_number")
      (pyOr (vget d "documentNumber") (pyOr (vget d "document_num") (.vStr ""))))
  let desc := _safe_str (pyOr (vget d "description") (.vStr ""))
  let date_filed := pyOrS
      (pyTake 10 (_safe_str (pyOr (vget d "date_filed") (pyOr (vget d "dateFiled") (.vStr "")))))
      env.today_iso
  let document_url := _abs_url (orStr
      [vget d "absolute_url", vget d "absoluteUrl", vget d "url", .vStr ""])
  let pdf_url := _extract_pdf_url d
  let snippet := pdf_snippet env d
  let pd := if snippet ≠ "" then env.extract_parties_from_caption snippet
            else ("미확인", "미확인")
  let causes := if snippet ≠ "" then env.detect_causes snippet else []
  let ai_snip := if snippet ≠ "" then env.extract_ai_training_snippet snippet else ""
  { docket_id := some docket_id
    docket_number := pyOrS docket_number "미확인"
    case_name := pyOrS case_name "미확인"
    court := pyOrS court "미확인"
    date_filed := date_filed
    doc_type := pyOrS doc_type (if _is_complaint d then "Complaint" else "Document")
    doc_number := pyOrS doc_number "미확인"
    description := pyOrS desc "미확인"
    document_url := pyOrS document_url (pyOrS pdf_url "")
    pdf_url := pyOrS pdf_url ""
    pdf_text_snippet := snippet
    extracted_plaintiff := pd.1
    extracted_defendant := pd.2
    extracted_causes := if causes.isEmpty then "미확인" else String.intercalate ", " causes
    extracted_ai_snippet := pyOrS ai_snip "" }

/-- Per-hit body of `build_complaint_documents_from_hits`
(`src/courtlistener.py:172-226`): identifier coercion (skipping falsy ids,
so `None` and `0`), docket metadata, and up to three complaint-or-recent
documents. -/
def docs_for_hit (env : Env) (hit : PyVal) : List CLDocument :=
  match _pick_docket_id hit with
  | none => []
  | some docket_id =>
    if docket_id = 0 then []
    else
      let docketV : PyVal :=
        match fetch_docket env docket_id with
        | some v => if pyTruthy v then v else .vDict []
        | none => .vDict []
      let case_name := _safe_str (pyOr (vget docketV "case_name")
          (pyOr (vget docketV "caseName") (pyOr (vget hit "caseName") (vget hit "title"))))
      let docket_number := _safe_str (pyOr (vget docketV "docket_number")
          (pyOr (vget docketV "docketNumber") (.vStr "")))
      let court := _safe_str (pyOr (vget docketV "court")
          (pyOr (vget docketV "court_id") (pyOr (vget docketV "courtId") (.vStr ""))))
      let recap_docs := list_recap_documents env docket_id 50
      if recap_docs.isEmpty then []
      else
        let complaint_docs := recap_docs.filter _is_complaint
        let complaint_docs :=
          if complaint_docs.isEmpty then
            (sortDesc (fun a b => decide (raw_date_key a < raw_date_key b)) recap_docs).take 2
          else complaint_docs
        (complaint_docs.take 3).map
          (build_one_doc env docket_id docket_number case_name court)

/-- Dedup key of `CLDocument` records
(`src/run.py:85`, `src/courtlistener.py:230`). -/
def docKey (d : CLDocument) : Option Int × String × String × String :=
  (d.docket_id, d.doc_number, d.date_filed, d.document_url)

/-- The `merged_docs` dict merge of `src/run.py:83-87` and the trailing
dedup of `build_complaint_documents_from_hits`
(`src/courtlistener.py:227-232`). -/
def merge_docs (l : List CLDocument) : List CLDocument :=
  pyDedupValues docKey l

/-- `build_complaint_documents_from_hits` (`src/courtlistener.py:170-232`).
The `days` parameter is accepted and unused, as in the source. -/
def build_complaint_documents_from_hits (env : Env) (hits : List PyVal)
    (days : Nat) : List CLDocument :=
  let _ := days
  merge_docs (hits.flatMap (docs_for_hit env))

/-- The `merged_cases` dict merge of `src/run.py:77-78`:
`{c.docket_id: c for c in (cl_cases + extra_cases + extra_cases_by_title)}`. -/
def merge_cases (l : List CLCaseSummary) : List CLCaseSummary :=
  pyDedupValues (fun c => c.docket_id) l

/-! ## Renderer (`src/render.py`) -/

/-- `_esc` (`src/render.py:8-15`): trim, normalise newlines, neutralise
fenced-code delimiters, escape pipes, turn newlines into `<br>`. -/
def _esc (s : String) : String :=
  let t := pyStrip s
  let t := pyReplace t "\r\n" "\n"
  let t := pyReplace t "\r" "\n"
  let t := pyReplace t "```" "&#96;&#96;&#96;"
  let t := pyReplace t "~~~" "&#126;&#126;&#126;"
  let t := pyReplace t "|" "\\|"
  pyReplace t "\n" "<br>"

/-- `_md_sep` (`src/render.py:18-19`). -/
def _md_sep (col_count : Nat) : String := "|" ++ strRepeat "---| " col_count

/-- `_mdlink` (`src/render.py:22-27`): the label goes through `_esc`, the
URL is only stripped. -/
def _mdlink (label url : String) : String :=
  let label := _esc label
  let u := pyStrip url
  if u = "" then label else "[" ++ label ++ "](" ++ u ++ ")"

/-- One `Counter` bump: increment a present key in place, append a new one. -/
def counterBump (k : String) : List (String × Nat) → List (String × Nat)
  | [] => [(k, 1)]
  | p :: rest => if p.1 = k then (p.1, p.2 + 1) :: rest else p :: counterBump k rest

/-- `collections.Counter(l)`: counts keyed in first-occurrence order. -/
def counterOf (l : List String) : List (String × Nat) :=
  l.foldl (fun acc x => counterBump x acc) []

/-- `Counter.most_common(n)`: stable descending sort by count, first `n`. -/
def most_common (c : List (String × Nat)) (n : Nat) : List (String × Nat) :=
  (sortDesc (fun a b => decide (a.2 < b.2)) c).take n

/-- `_generate_executive_summary` (`src/render.py:37-58`).  The guarded
`courts.most_common(1)[0][0]` indexing is modelled in `Except` so that an
out-of-range access would surface as an internal error. -/
def _generate_executive_summary (cl_cases : List CLCaseSummary) :
    Except String String :=
  if cl_cases.isEmpty then .ok "최근 범위 내 분석 가능한 사건이 없습니다."
  else
    let total_cases := cl_cases.length
    let copyright_cases := (cl_cases.filter (fun c =>
        decide (c.nature_of_suit ≠ "") && strContains c.nature_of_suit "820")).length
    let courts := counterOf (cl_cases.map (fun c => pyOrS c.court "미확인"))
    let majorE : Except String String :=
      if courts.isEmpty then .ok "미확인"
      else
        match (most_common courts 1).head? with
        | some kv => .ok kv.1
        | none => .error "list index out of range"
    majorE.map (fun major_court =>
      "최근 " ++ toString total_cases ++ "건의 AI 관련 소송이 확인되었습니다." ++ "\n"
      ++ "그 중 " ++ toString copyright_cases ++ "건은 820 Copyright 유형입니다." ++ "\n"
      ++ "주요 쟁점은 AI 학습을 위한 무단 데이터 수집 및 저작권 침해 주장입니다." ++ "\n"
      ++ "가장 활발한 관할 법원은 " ++ major_court ++ " 입니다." ++ "\n"
      ++ "AI 학습 데이터의 법적 책임 범위에 대한 판례 형성이 진행 중입니다.")

/-- Executive-summary section of the report (`src/render.py:85-90`). -/
def exec_section (cl_cases : List CLCaseSummary) : Except String (List String) :=
  if cl_cases.isEmpty then .ok []
  else
    (_generate_executive_summary cl_cases).map (fun summary =>
      "## 🧠 Executive Summary (AI Generated)\n"
        :: (splitNl summary).map (fun line => "> " ++ line) ++ [""])

/-- Nature-of-suit statistics section (`src/render.py:95-102`). -/
def nature_section (cl_cases : List CLCaseSummary) : List String :=
  if cl_cases.isEmpty then []
  else
    let counter := counterOf (cl_cases.map (fun c => pyOrS c.nature_of_suit "미확인"))
    ["## 📊 Nature of Suit 통계\n", "| Nature of Suit | 건수 |", "|---|---|"]
      ++ (most_common counter 10).map (fun kv =>
          "| " ++ _esc kv.1 ++ " | **" ++ toString kv.2 ++ "** |")
      ++ [""]

/-- `render_table` (`src/render.py:119-137`): one seven-column case table,
sorted by filing date descending, top 25 rows. -/
def case_table (cases : List CLCaseSummary) : List String :=
  ["| 상태 | 접수일 | 케이스명 | Nature | 도켓번호 | 담당판사 | 법원명 |", _md_sep 7]
    ++ ((sortDesc (fun a b => decide (pyOrS a.date_filed "" < pyOrS b.date_filed "")) cases).take 25).map
      (fun c =>
        let docket_url := if c.docket_id = 0 then ""
          else "https://www.courtlistener.com/docket/" ++ toString c.docket_id ++ "/"
        "| " ++ _esc c.status ++ " | " ++ _esc c.date_filed ++ " | "
          ++ _mdlink c.case_name docket_url ++ " | " ++ _esc c.nature_of_suit ++ " | "
          ++ _mdlink c.docket_number docket_url ++ " | " ++ _esc c.judge ++ " | "
          ++ _esc c.court ++ " |")

/-- RECAP case section (`src/render.py:107-155`): the 820-copyright cases
headline, the rest folded into a collapsible block. -/
def cases_section (cl_cases : List CLCaseSummary) : List String :=
  if cl_cases.isEmpty then []
  else
    let is820 := fun (c : CLCaseSummary) =>
      let nature := pyLower (pyOrS c.nature_of_suit "")
      strContains nature "820" && strContains nature "copyright"
    let copyright_cases := cl_cases.filter is820
    let other_cases := cl_cases.filter (fun c => !is820 c)
    ["## 🔥 820 Copyright\n"]
      ++ (if copyright_cases.isEmpty then ["820 사건 없음\n"] else case_table copyright_cases)
      ++ ["\n<details>", "<summary><strong>📁 Others</strong></summary>\n"]
      ++ (if other_cases.isEmpty then ["Others 사건 없음\n"] else case_table other_cases)
      ++ ["</details>\n"]

/-- RECAP document section (`src/render.py:160-171`). -/
def docs_section (cl_docs : List CLDocument) : List String :=
  if cl_docs.isEmpty then []
  else
    ["## 📄 RECAP 문서 기반 (Complaint/Petition 우선)",
     "| 제출일 | 케이스 | 문서유형 | 문서 |", _md_sep 4]
      ++ ((sortDesc (fun a b => decide (pyOrS a.date_filed "" < pyOrS b.date_filed "")) cl_docs).take 20).map
        (fun d =>
          let link := pyOrS d.document_url d.pdf_url
          "| " ++ _esc d.date_filed ++ " | " ++ _esc d.case_name ++ " | "
            ++ _esc d.doc_type ++ " | " ++ _mdlink "Document" link ++ " |")
      ++ [""]

/-- News-article section (`src/render.py:176-198`). -/
def articles_section (lawsuits : List Lawsuit) : List String :=
  if lawsuits.isEmpty then []
  else
    ["<details>", "<summary><strong>📰 기사 주소</strong></summary>\n"]
      ++ lawsuits.flatMap (fun s =>
        let header_title :=
          if s.case_title ≠ "" ∧ s.case_title ≠ "미확인"
              ∧ s.article_title ≠ "" ∧ s.article_title ≠ s.case_title then
            s.case_title ++ " / " ++ s.article_title
          else if s.case_title ≠ "" ∧ s.case_title ≠ "미확인" then s.case_title
          else pyOrS s.article_title s.case_title
        ("### " ++ _esc header_title)
          :: s.article_urls.map (fun u => "- " ++ u) ++ [""])
      ++ ["</details>\n"]

/-- Body of the `try` block of `render_markdown` (`src/render.py:68-200`):
the full report as a list of lines, in an `Except` that would carry any
internal failure out to the catch-all handler. -/
def render_markdown_body (lawsuits : List Lawsuit) (cl_docs : List CLDocument)
    (cl_cases : List CLCaseSummary) (lookback_days : Nat) :
    Except String (List String) :=
  let kpi : List String :=
    ["## 📊 최근 " ++ toString lookback_days ++ "일 요약\n",
     "| 구분 | 건수 |",
     "|---|---|",
     "| 📰 뉴스 수집 | **" ++ toString lawsuits.length ++ "** |",
     "| ⚖️ RECAP 사건 | **" ++ toString cl_cases.length ++ "** |",
     "| 📄 RECAP 문서 | **" ++ toString cl_docs.length ++ "** |\n"]
  (exec_section cl_cases).map (fun execLines =>
    kpi ++ execLines ++ nature_section cl_cases ++ cases_section cl_cases
      ++ docs_section cl_docs ++ articles_section lawsuits)

/-- `render_markdown` (`src/render.py:61-204`): join the body's lines; the
catch-all `except` turns any internal failure into a short diagnostic
string, so a string is returned on every input. -/
def render_markdown (lawsuits : List Lawsuit) (cl_docs : List CLDocument)
    (cl_cases : List CLCaseSummary) (lookback_days : Nat) : String :=
  match render_markdown_body lawsuits cl_docs cl_cases lookback_days with
  | .ok lines => String.intercalate "\n" lines
  | .error e => "⚠️ render_markdown 오류 발생: " ++ e

/-! ## Snapshot differencer (`src/github_issue.py`, `src/run.py:124-153`) -/

/-- `issue_has_base_snapshot` (`src/github_issue.py:25-30`). -/
def issue_has_base_snapshot (issue_body : String) : Bool :=
  strContains issue_body "## 📊 최근"

/-- The comparison loop of `src/run.py:134-142`: every line of the new
report found among the previous body's lines becomes the `"skip"`
placeholder and is counted; the rest are kept verbatim. -/
def diff_lines (base_lines : List String) : List String → List String × Nat
  | [] => ([], 0)
  | l :: rest =>
    let r := diff_lines base_lines rest
    if base_lines.contains l then ("skip" :: r.1, r.2 + 1) else (l :: r.1, r.2)

/-- The rerun summary block of `src/run.py:144-151`. -/
def summary_block (n_lawsuits docket_case_count recap_doc_count skipped : Nat) :
    String :=
  "## 🔄 당일 재실행 변경 요약\n\n"
    ++ "- 📰 외부 기사 신규: " ++ toString n_lawsuits ++ "건\n"
    ++ "- ⚖️ RECAP 신규 사건: " ++ toString docket_case_count ++ "건\n"
    ++ "- 📄 RECAP 신규 문서: " ++ toString recap_doc_count ++ "건\n"
    ++ "- 🔁 기존 내용 생략: " ++ toString skipped ++ "건\n\n"
    ++ "---\n"

/-- Result of the snapshot step: `stored_body` is the body written back to
the issue (only on the first run of the day), `final_md` the text the
comment is posted with, `skipped` the suppressed-line count. -/
structure SnapshotOutcome where
  stored_body : Option String
  final_md : String
  skipped : Nat
deriving DecidableEq

/-- The base-snapshot branch of `main` (`src/run.py:124-153`): store the
report verbatim when the marker is absent, otherwise post the summary block
plus the line-level diff against the previous body. -/
def snapshot_step (current_body md : String)
    (n_lawsuits docket_case_count recap_doc_count : Nat) : SnapshotOutcome :=
  if issue_has_base_snapshot current_body then
    let r := diff_lines (pySplitlines current_body) (pySplitlines md)
    { stored_body := none
      final_md := summary_block n_lawsuits docket_case_count recap_doc_count r.2
        ++ String.intercalate "\n" r.1
      skipped := r.2 }
  else
    { stored_body := some md, final_md := md, skipped := 0 }

/-! ## Python call binding at `src/run.py:104-110` -/

/-- One parameter of a Python function signature. -/
structure PyParam where
  name : String
  has_default : Bool
deriving DecidableEq

/-- Parameter list of `render_markdown`
(`src/render.py:61-66`: `(lawsuits, cl_docs, cl_cases, lookback_days=3)`). -/
def render_markdown_params : List PyParam :=
  [⟨"lawsuits", false⟩, ⟨"cl_docs", false⟩, ⟨"cl_cases", false⟩,
   ⟨"lookback_days", true⟩]

/-- CPython argument binding for a call with `n_pos` positional arguments
and keyword arguments `kw`, against `params`.  Binding happens before the
callee's body runs, so a binding error is raised at the call site. -/
def bind_call (params : List PyParam) (n_pos : Nat) (kw : List String) :
    Except String Unit :=
  if params.length < n_pos then
    .error "TypeError: too many positional arguments"
  else
    match kw.find? (fun k => (params.take n_pos).any (fun p => p.name == k)) with
    | some k => .error ("TypeError: got multiple values for argument " ++ k)
    | none =>
      match kw.find? (fun k => !params.any (fun p => p.name == k)) with
      | some k => .error ("TypeError: unexpected keyword argument " ++ k)
      | none =>
        match (params.drop n_pos).find?
            (fun p => !p.has_default && !kw.contains p.name) with
        | some p => .error ("TypeError: missing required argument " ++ p.name)
        | none => .ok ()

/-- The rendering step of `main` (`src/run.py:104-110`): the call site
passes four positional arguments plus `lookback_days=` as a keyword to a
function of signature `(lawsuits, cl_docs, cl_cases, lookback_days=3)`.
Binding is checked first; only if it succeeded would the body run (with the
fourth positional argument occupying `lookback_days`). -/
def main_render_step (lawsuits : List Lawsuit) (cl_docs : List CLDocument)
    (cl_cases : List CLCaseSummary) (recap_doc_count lookback_days : Nat) :
    Except String String :=
  let _ := lookback_days
  match bind_call render_markdown_params 4 ["lookback_days"] with
  | .error e => .error e
  | .ok _ => .ok (render_markdown lawsuits cl_docs cl_cases recap_doc_count)

/-! ## Risk scorer (spec §4.4, §8) -/

/-- Modelled from the spec: the risk scorer is described in spec §4.4/§8
but its code is not under `src/` (no scoring function appears in the six
source files).  Keyword-category weights accumulate over the
lowercase-concatenated causes and AI snippet (30 scrape/crawl, 30
train/LLM, 15 commercial), plus 15 for an `820` nature-of-suit code and 10
for the phrase `class action`, before the cap. -/
def raw_risk_score (c : CLCaseSummary) : Nat :=
  let text := pyLower (c.extracted_causes ++ " " ++ c.extracted_ai_snippet)
  (if strContains text "scrape" || strContains text "crawl" then 30 else 0)
    + (if strContains text "train" || strContains text "llm" then 30 else 0)
    + (if strContains text "commercial" then 15 else 0)
    + (if strContains c.nature_of_suit "820" then 15 else 0)
    + (if strContains text "class action" then 10 else 0)

/-- Modelled from the spec: the total risk score is "capped at 100
(saturating add, not wraparound)" (spec §4.4). -/
def risk_score (c : CLCaseSummary) : Nat := min (raw_risk_score c) 100


/-! ## Lemmas about the insertion-ordered dict -/

section PyDictLemmas

variable {α : Type} {κ : Type} [DecidableEq κ]

omit [DecidableEq κ] in
lemma dictKeys_cons (p : κ × α) (rest : List (κ × α)) :
    dictKeys (p :: rest) = p.1 :: dictKeys rest := rfl

lemma dictInsert_cons_pos (k : κ) (v : α) (p : κ × α) (rest : List (κ × α))
    (h : p.1 = k) : dictInsert k v (p :: rest) = (k, v) :: rest := by
  rw [dictInsert, if_pos h]

lemma dictInsert_cons_neg (k : κ) (v : α) (p : κ × α) (rest : List (κ × α))
    (h : ¬ p.1 = k) : dictInsert k v (p :: rest) = p :: dictInsert k v rest := by
  rw [dictInsert, if_neg h]

lemma mem_dictKeys_dictInsert_inv (k k' : κ) (v : α) (d : List (κ × α))
    (h : k' ∈ dictKeys (dictInsert k v d)) : k' = k ∨ k' ∈ dictKeys d := by
  induction d with
  | nil => simpa [dictInsert, dictKeys] using h
  | cons p rest ih =>
    by_cases hp : p.1 = k
    · rw [dictInsert_cons_pos k v p rest hp, dictKeys_cons] at h
      rcases List.mem_cons.mp h with h | h
      · exact Or.inl h
      · exact Or.inr (by rw [dictKeys_cons]; exact List.mem_cons_of_mem _ h)
    · rw [dictInsert_cons_neg k v p rest hp, dictKeys_cons] at h
      rcases List.mem_cons.mp h with h | h
      · exact Or.inr (by rw [dictKeys_cons, h]; exact List.mem_cons_self _ _)
      · rcases ih h with h' | h'
        · exact Or.inl h'
        · exact Or.inr (by rw [dictKeys_cons]; exact List.mem_cons_of_mem _ h')

lemma mem_dictKeys_dictInsert_self (k : κ) (v : α) (d : List (κ × α)) :
    k ∈ dictKeys (dictInsert k v d) := by
  induction d with
  | nil => simp [dictInsert, dictKeys]
  | cons p rest ih =>
    by_cases hp : p.1 = k
    · rw [dictInsert_cons_pos k v p rest hp, dictKeys_cons]
      exact List.mem_cons_self _ _
    · rw [dictInsert_cons_neg k v p rest hp, dictKeys_cons]
      exact List.mem_cons_of_mem _ ih

lemma mem_dictKeys_dictInsert_mono (k k' : κ) (v : α) (d : List (κ × α))
    (h : k' ∈ dictKeys d) : k' ∈ dictKeys (dictInsert k v d) := by
  induction d with
  | nil => cases h
  | cons p rest ih =>
    rw [dictKeys_cons] at h
    by_cases hp : p.1 = k
    · rw [dictInsert_cons_pos k v p rest hp, dictKeys_cons]
      rcases List.mem_cons.mp h with h | h
      · simp [h, hp]
      · exact List.mem_cons_of_mem _ h
    · rw [dictInsert_cons_neg k v p rest hp, dictKeys_cons]
      rcases List.mem_cons.mp h with h | h
      · rw [h]; exact List.mem_cons_self _ _
      · exact List.mem_cons_of_mem _ (ih h)

lemma nodup_dictKeys_dictInsert (k : κ) (v : α) (d : List (κ × α))
    (h : (dictKeys d).Nodup) : (dictKeys (dictInsert k v d)).Nodup := by
  induction d with
  | nil => simp [dictInsert, dictKeys]
  | cons p rest ih =>
    rw [dictKeys_cons, List.nodup_cons] at h
    by_cases hp : p.1 = k
    · rw [dictInsert_cons_pos k v p rest hp, dictKeys_cons, List.nodup_cons]
      exact ⟨hp ▸ h.1, h.2⟩
    · rw [dictInsert_cons_neg k v p rest hp, dictKeys_cons, List.nodup_cons]
      refine ⟨fun hc => ?_, ih h.2⟩
      rcases mem_dictKeys_dictInsert_inv k p.1 v rest hc with h' | h'
      · exact hp h'
      · exact h.1 h'

lemma mem_dictInsert (k : κ) (v : α) (d : List (κ × α)) (p : κ × α)
    (h : p ∈ dictInsert k v d) : p = (k, v) ∨ p ∈ d := by
  induction d with
  | nil => simpa [dictInsert] using h
  | cons q rest ih =>
    by_cases hq : q.1 = k
    · rw [dictInsert_cons_pos k v q rest hq] at h
      rcases List.mem_cons.mp h with h | h
      · exact Or.inl h
      · exact Or.inr (List.mem_cons_of_mem _ h)
    · rw [dictInsert_cons_neg k v q rest hq] at h
      rcases List.mem_cons.mp h with h | h
      · exact Or.inr (by rw [h]; exact List.mem_cons_self _ _)
      · rcases ih h with h' | h'
        · exact Or.inl h'
        · exact Or.inr (List.mem_cons_of_mem _ h')

lemma dictLookup_cons (k : κ) (p : κ × α) (rest : List (κ × α)) :
    dictLookup k (p :: rest) =
      if p.1 = k then some p.2 else dictLookup k rest := rfl

lemma dictLookup_dictInsert (k k' : κ) (v : α) (d : List (κ × α)) :
    dictLookup k' (dictInsert k v d) =
      if k = k' then some v else dictLookup k' d := by
  induction d with
  | nil => simp [dictInsert, dictLookup]
  | cons p rest ih =>
    by_cases hp : p.1 = k
    · rw [dictInsert_cons_pos k v p rest hp, dictLookup_cons, dictLookup_cons]
      by_cases hk : k = k'
      · simp [hk]
      · have hpk : ¬ p.1 = k' := by rw [hp]; exact hk
        rw [if_neg hk, if_neg hk, if_neg hpk]
    · rw [dictInsert_cons_neg k v p rest hp, dictLookup_cons, dictLookup_cons, ih]
      by_cases hpk : p.1 = k'
      · have hk : ¬ k = k' := fun hc => hp (by rw [hpk, hc])
        rw [if_pos hpk, if_neg hk, if_pos hpk]
      · rw [if_neg hpk, if_neg hpk]

/-- Invariant of the dict built by `dictOf`: keys are distinct and every
stored pair is keyed by its value's key. -/
def DictInv (key : α → κ) (d : List (κ × α)) : Prop :=
  (dictKeys d).Nodup ∧ ∀ p ∈ d, key p.2 = p.1

lemma dictInv_dictInsert (key : α → κ) (x : α) (d : List (κ × α))
    (h : DictInv key d) : DictInv key (dictInsert (key x) x d) := by
  refine ⟨nodup_dictKeys_dictInsert _ _ _ h.1, fun p hp => ?_⟩
  rcases mem_dictInsert _ _ _ _ hp with h' | h'
  · rw [h']
  · exact h.2 p h'

lemma dictInv_foldl (key : α → κ) (l : List α) :
    ∀ d, DictInv key d →
      DictInv key (l.foldl (fun d x => dictInsert (key x) x d) d) := by
  induction l with
  | nil => intro d h; simpa using h
  | cons x rest ih =>
    intro d h
    exact ih _ (dictInv_dictInsert key x d h)

lemma dictInv_dictOf (key : α → κ) (l : List α) : DictInv key (dictOf key l) :=
  dictInv_foldl key l [] ⟨List.nodup_nil, by simp⟩

lemma mem_dictKeys_foldl_mono (key : α → κ) (l : List α) :
    ∀ (d : List (κ × α)) (k : κ), k ∈ dictKeys d →
      k ∈ dictKeys (l.foldl (fun d x => dictInsert (key x) x d) d) := by
  induction l with
  | nil => intro d k h; simpa using h
  | cons x rest ih =>
    intro d k h
    exact ih _ k (mem_dictKeys_dictInsert_mono _ _ _ _ h)

lemma mem_dictKeys_foldl (key : α → κ) (l : List α) :
    ∀ (d : List (κ × α)) (x : α), x ∈ l →
      key x ∈ dictKeys (l.foldl (fun d x => dictInsert (key x) x d) d) := by
  induction l with
  | nil => intro d x h; cases h
  | cons y rest ih =>
    intro d x h
    rcases List.mem_cons.mp h with h | h
    · subst h
      exact mem_dictKeys_foldl_mono key rest _ _
        (mem_dictKeys_dictInsert_self _ _ _)
    · exact ih _ x h

lemma dictLookup_eq_some_of_mem (d : List (κ × α)) (k : κ) (v : α)
    (hnd : (dictKeys d).Nodup) (hm : (k, v) ∈ d) : dictLookup k d = some v := by
  induction d with
  | nil => cases hm
  | cons p rest ih =>
    rw [dictKeys_cons, List.nodup_cons] at hnd
    rcases List.mem_cons.mp hm with h | h
    · rw [← h, dictLookup_cons, if_pos rfl]
    · have hp : ¬ p.1 = k := fun hc => hnd.1 (by
        rw [hc]
        exact List.mem_map.mpr ⟨(k, v), h, rfl⟩)
      rw [dictLookup_cons, if_neg hp]
      exact ih hnd.2 h

lemma dictLookup_foldl (key : α → κ) (l : List α) :
    ∀ (d : List (κ × α)) (k : κ),
      dictLookup k (l.foldl (fun d x => dictInsert (key x) x d) d) =
        l.foldl (fun acc x => if key x = k then some x else acc)
          (dictLookup k d) := by
  induction l with
  | nil => intro d k; rfl
  | cons x rest ih =>
    intro d k
    show dictLookup k (rest.foldl _ (dictInsert (key x) x d)) = _
    rw [ih, dictLookup_dictInsert]
    rfl

lemma getLast?_cons_elim (x : α) (t : List α) :
    (x :: t).getLast? = (t.getLast?).elim (some x) some := by
  cases t with
  | nil => simp
  | cons a t' =>
    rw [List.getLast?_cons_cons]
    cases h : (a :: t').getLast? with
    | none =>
      exact absurd h (by simp [List.getLast?_eq_none_iff])
    | some y => rfl

lemma foldl_lastPick (q : α → Prop) [DecidablePred q] (l : List α) :
    ∀ acc : Option α,
      l.foldl (fun a x => if q x then some x else a) acc =
        ((l.filter (fun x => decide (q x))).getLast?).elim acc some := by
  induction l with
  | nil => intro acc; simp
  | cons x xs ih =>
    intro acc
    show xs.foldl _ (if q x then some x else acc) = _
    rw [ih]
    by_cases hq : q x
    · rw [List.filter_cons_of_pos (by simpa using hq), getLast?_cons_elim]
      cases h : (xs.filter (fun x => decide (q x))).getLast? with
      | none => simp [hq]
      | some y => simp
    · rw [List.filter_cons_of_neg (by simpa using hq)]
      simp [hq]

lemma pyDedup_keys_nodup (key : α → κ) (l : List α) :
    ((pyDedupValues key l).map key).Nodup := by
  have hinv := dictInv_dictOf key l
  have heq : (pyDedupValues key l).map key = dictKeys (dictOf key l) := by
    unfold pyDedupValues dictKeys
    rw [List.map_map]
    exact List.map_congr_left (fun p hp => hinv.2 p hp)
  rw [heq]
  exact hinv.1

lemma pyDedup_covers (key : α → κ) (l : List α) (x : α) (hx : x ∈ l) :
    ∃ y, y ∈ pyDedupValues key l ∧ key y = key x := by
  have hk : key x ∈ dictKeys (dictOf key l) := mem_dictKeys_foldl key l [] x hx
  rcases List.mem_map.mp hk with ⟨p, hp, hpk⟩
  exact ⟨p.2, List.mem_map_of_mem _ hp,
    by rw [(dictInv_dictOf key l).2 p hp, hpk]⟩

lemma pyDedup_last (key : α → κ) (l : List α) (y : α)
    (hy : y ∈ pyDedupValues key l) :
    (l.filter (fun x => decide (key x = key y))).getLast? = some y := by
  obtain ⟨p, hp, hps⟩ := List.mem_map.mp hy
  have hinv := dictInv_dictOf key l
  have hk : p.1 = key y := by rw [← hps]; exact (hinv.2 p hp).symm
  have hl : dictLookup (key y) (dictOf key l) = some y := by
    rw [← hk, ← hps]
    exact dictLookup_eq_some_of_mem _ _ _ hinv.1 (by rwa [Prod.mk.eta])
  rw [dictOf] at hl
  rw [dictLookup_foldl key l [] (key y)] at hl
  rw [foldl_lastPick (fun x => key x = key y) l] at hl
  cases h : (l.filter (fun x => decide (key x = key y))).getLast? with
  | none =>
    rw [h] at hl
    cases hl
  | some z =>
    rw [h] at hl
    simpa using hl

end PyDictLemmas

/-! ## Lemmas about pipe escaping in `_esc` -/

/-- Scan predicate: every `'|'` is immediately preceded by a backslash,
`prev` being the character before the scanned segment. -/
def pipeOKFrom : Char → List Char → Bool
  | _, [] => true
  | prev, c :: rest => (decide (c ≠ '|') || decide (prev = '\\')) && pipeOKFrom c rest

/-- A character list with no raw unescaped pipe (a leading pipe counts as
unescaped). -/
def pipeOK (l : List Char) : Bool := pipeOKFrom ' ' l

lemma replaceLAux_single (a : Char) (r : List Char) :
    ∀ (fuel : Nat) (l : List Char), l.length ≤ fuel →
      replaceLAux [a] r fuel l = l.flatMap (fun x => if x = a then r else [x]) := by
  intro fuel
  induction fuel with
  | zero =>
    intro l h
    cases l with
    | nil => rfl
    | cons c cs => simp at h
  | succ fuel ih =>
    intro l h
    cases l with
    | nil => rfl
    | cons c cs =>
      show (if [a] ≠ [] ∧ [a].isPrefixOf (c :: cs) then
          r ++ replaceLAux [a] r fuel (List.drop 0 cs)
        else c :: replaceLAux [a] r fuel cs) = _
      have hlen : cs.length ≤ fuel := by
        simpa using Nat.le_of_succ_le_succ (by simpa using h)
      by_cases hc : c = a
      · have hp : [a] ≠ [] ∧ [a].isPrefixOf (c :: cs) := by
          refine ⟨by simp, ?_⟩
          simp [List.isPrefixOf, hc]
        rw [if_pos hp, List.drop_zero, ih cs hlen, List.flatMap_cons, if_pos hc]
      · have hp : ¬ ([a] ≠ [] ∧ [a].isPrefixOf (c :: cs)) := by
          rintro ⟨-, hpre⟩
          simp [List.isPrefixOf] at hpre
          exact hc (by simp [hpre])
        rw [if_neg hp, ih cs hlen, List.flatMap_cons, if_neg hc]
        rfl

lemma replaceL_single (a : Char) (r : List Char) (l : List Char) :
    replaceL [a] r l = l.flatMap (fun x => if x = a then r else [x]) :=
  replaceLAux_single a r l.length l (Nat.le_refl _)

lemma pipe_escape_ok (l : List Char) :
    ∀ p : Char,
      pipeOKFrom p (l.flatMap (fun x => if x = '|' then ['\\', '|'] else [x])) = true := by
  induction l with
  | nil => intro p; rfl
  | cons x xs ih =>
    intro p
    by_cases hx : x = '|'
    · simp only [List.flatMap_cons, if_pos hx, List.cons_append, List.nil_append,
        pipeOKFrom, ih]
      simp
    · simp only [List.flatMap_cons, if_neg hx, List.singleton_append, pipeOKFrom, ih]
      simp [hx]

lemma nl_escape_preserves (l : List Char) :
    ∀ p q : Char, (p = '\\' → q = '\\') → pipeOKFrom p l = true →
      pipeOKFrom q (l.flatMap (fun x => if x = '\n' then ['<', 'b', 'r', '>'] else [x])) = true := by
  induction l with
  | nil => intro p q _ _; rfl
  | cons x xs ih =>
    intro p q hq h
    rw [show pipeOKFrom p (x :: xs)
      = ((decide (x ≠ '|') || decide (p = '\\')) && pipeOKFrom x xs) from rfl,
      Bool.and_eq_true] at h
    by_cases hx : x = '\n'
    · have htail := ih x '>' (by rw [hx]; intro hc; cases hc) h.2
      simp only [List.flatMap_cons, if_pos hx, List.cons_append, List.nil_append,
        pipeOKFrom, htail]
      simp
    · have htail := ih x x (fun hc => hc) h.2
      simp only [List.flatMap_cons, if_neg hx, List.singleton_append, pipeOKFrom, htail]
      rcases Bool.or_eq_true_iff.mp h.1 with h' | h'
      · simp [h']
      · simp [hq (of_decide_eq_true h')]


/-! ## Concrete fixtures used by the claim theorems -/

/-- A Case Summary with the given docket id and case name, every other
field empty. -/
def mkCase (id : Int) (name : String) : CLCaseSummary :=
  ⟨id, name, "", "", "", "", "", "", "", "", "", "", "", "", "", ""⟩

/-- The record `{id: 1, name: "X"}` of the spec's merge example. -/
def caseX : CLCaseSummary := mkCase 1 "X"

/-- The record `{id: 1, name: "Y"}` of the spec's merge example. -/
def caseY : CLCaseSummary := mkCase 1 "Y"

/-- A Document with the given dedup-key fields and case name, every other
field empty. -/
def mkDoc (id : Option Int) (num date url name : String) : CLDocument :=
  ⟨id, "", name, "", date, "", num, "", url, "", "", "", "", "", ""⟩

/-- First of two documents sharing the dedup key. -/
def docA : CLDocument := mkDoc (some 9) "1" "2024-01-01" "https://x/1" "A"

/-- Second document: same dedup key as `docA`, different case name. -/
def docB : CLDocument := mkDoc (some 9) "1" "2024-01-01" "https://x/1" "B"

/-! ## Claim theorems -/

/-- C1: Case Summary merging over the concatenation of the fetch-order
lists (`src/run.py:77-78`) keys on `docket_id` with exactly one entry per
key (pairwise-distinct keys, every input key represented), the record
retained for a key is the last one in concatenation order, and the spec's
two-list example merges to `Y` and `X` respectively. -/
theorem c1_case_merge_last_write_wins :
    (∀ l : List CLCaseSummary,
        ((merge_cases l).map (fun c => c.docket_id)).Nodup
        ∧ ∀ c ∈ l, ∃ c', c' ∈ merge_cases l ∧ c'.docket_id = c.docket_id)
    ∧ (∀ (l : List CLCaseSummary) (c : CLCaseSummary), c ∈ merge_cases l →
        (l.filter (fun x => decide (x.docket_id = c.docket_id))).getLast? = some c)
    ∧ merge_cases ([caseX] ++ [caseY]) = [caseY]
    ∧ merge_cases ([caseY] ++ [caseX]) = [caseX] := by
  refine ⟨fun l => ⟨pyDedup_keys_nodup _ l, fun c hc => pyDedup_covers _ l c hc⟩,
    fun l c hc => pyDedup_last _ l c hc, rfl, rfl⟩

/-- Witness for C1: in the concatenation `[caseX, caseY]` the surviving
record for docket id 1 is the last occurrence, `caseY`. -/
theorem c1_case_merge_last_write_wins_witness :
    ([caseX, caseY].filter
      (fun x => decide (x.docket_id = caseY.docket_id))).getLast? = some caseY :=
  c1_case_merge_last_write_wins.2.1 [caseX, caseY] caseY (by decide)

/-- C8: Document merging (`src/run.py:83-87`,
`src/courtlistener.py:227-232`) keys on the tuple
`(docket_id, doc_number, date_filed, document_url)`: one entry per distinct
tuple, every input tuple represented, the last record with a tuple is the
one retained, and two records differing only in an unrelated field collapse
to a single entry. -/
theorem c8_doc_dedup_key :
    (∀ l : List CLDocument,
        ((merge_docs l).map docKey).Nodup
        ∧ ∀ d ∈ l, ∃ d', d' ∈ merge_docs l ∧ docKey d' = docKey d)
    ∧ (∀ (l : List CLDocument) (d : CLDocument), d ∈ merge_docs l →
        (l.filter (fun x => decide (docKey x = docKey d))).getLast? = some d)
    ∧ merge_docs [docA, docB] = [docB] := by
  refine ⟨fun l => ⟨pyDedup_keys_nodup _ l, fun d hd => pyDedup_covers _ l d hd⟩,
    fun l d hd => pyDedup_last _ l d hd, rfl⟩

/-- Witness for C8: `docA` and `docB` share the dedup tuple and collapse to
the later record `docB`. -/
theorem c8_doc_dedup_key_witness :
    ([docA, docB].filter
      (fun x => decide (docKey x = docKey docB))).getLast? = some docB :=
  c8_doc_dedup_key.2.1 [docA, docB] docB (by decide)

/-- C2: rendering never raises — for every input `render_markdown` returns
a string: either the joined report body, or, when the body computation
fails internally, the short diagnostic string produced by the catch-all
handler (`src/render.py:61-204`). -/
theorem c2_render_markdown_total :
    ∀ (lawsuits : List Lawsuit) (cl_docs : List CLDocument)
      (cl_cases : List CLCaseSummary) (lookback_days : Nat),
      (∃ body, render_markdown_body lawsuits cl_docs cl_cases lookback_days = .ok body
        ∧ render_markdown lawsuits cl_docs cl_cases lookback_days
          = String.intercalate "\n" body)
      ∨ (∃ e, render_markdown_body lawsuits cl_docs cl_cases lookback_days = .error e
        ∧ render_markdown lawsuits cl_docs cl_cases lookback_days
          = "⚠️ render_markdown 오류 발생: " ++ e) := by
  intro lawsuits cl_docs cl_cases lookback_days
  cases h : render_markdown_body lawsuits cl_docs cl_cases lookback_days with
  | ok body => exact Or.inl ⟨body, rfl, by rw [render_markdown, h]⟩
  | error e => exact Or.inr ⟨e, rfl, by rw [render_markdown, h]⟩

/-- C3: the call at `src/run.py:104-110` passes four positional arguments
plus `lookback_days=` as a keyword to `render_markdown`, whose signature is
`(lawsuits, cl_docs, cl_cases, lookback_days=3)`; CPython argument binding
therefore raises `TypeError` at the call site — outside the function's
internal `try`/`except` — so the rendering step of every run fails before
anything is published. -/
theorem c3_render_call_type_error :
    ∀ (lawsuits : List Lawsuit) (cl_docs : List CLDocument)
      (cl_cases : List CLCaseSummary) (recap_doc_count lookback_days : Nat),
      main_render_step lawsuits cl_docs cl_cases recap_doc_count lookback_days
        = .error "TypeError: got multiple values for argument lookback_days"
      ∧ (main_render_step lawsuits cl_docs cl_cases recap_doc_count
          lookback_days).isOk = false
      ∧ bind_call render_markdown_params 4 ["lookback_days"]
        = .error "TypeError: got multiple values for argument lookback_days" := by
  intro _ _ _ _ _
  exact ⟨rfl, rfl, rfl⟩

/-- Previous issue body of the C4 scenario. -/
def prev_body_c4 : String := "## 📊 최근 3일 요약\nrowA\nrowB"

/-- New report of the C4 scenario. -/
def new_report_c4 : String := "## 📊 최근 3일 요약\nrowA\nrowC"

/-- C4: the snapshot differencer (`src/run.py:124-153`,
`src/github_issue.py:25-30`) stores the report verbatim when the previous
body lacks the base-snapshot marker; otherwise each line of the new report
that equals some previous line becomes the placeholder and is counted, the
others are kept verbatim; on the scenario bodies exactly the header and
`rowA` are suppressed (count 2), `rowC` is kept, and one non-placeholder
line remains. -/
theorem c4_snapshot_differencer :
    (∀ (body md : String) (a b c : Nat), issue_has_base_snapshot body = false →
        snapshot_step body md a b c = ⟨some md, md, 0⟩)
    ∧ (∀ (base new : List String),
        (diff_lines base new).1
          = new.map (fun l => if base.contains l then "skip" else l)
        ∧ (diff_lines base new).2
          = (new.filter (fun l => base.contains l)).length)
    ∧ (issue_has_base_snapshot prev_body_c4 = true
        ∧ diff_lines (pySplitlines prev_body_c4) (pySplitlines new_report_c4)
          = (["skip", "skip", "rowC"], 2)
        ∧ ((diff_lines (pySplitlines prev_body_c4)
            (pySplitlines new_report_c4)).1.filter
              (fun l => decide (l ≠ "skip"))).length = 1) := by
  refine ⟨fun body md a b c h => by simp [snapshot_step, h], fun base new => ?_, rfl, rfl, rfl⟩
  induction new with
  | nil => exact ⟨rfl, rfl⟩
  | cons l rest ih =>
    by_cases h : base.contains l
    · refine ⟨?_, ?_⟩
      · show (if base.contains l then ("skip" :: (diff_lines base rest).1, (diff_lines base rest).2 + 1)
          else (l :: (diff_lines base rest).1, (diff_lines base rest).2)).1 = _
        rw [if_pos h, List.map_cons, if_pos h]
        exact congrArg _ ih.1
      · show (if base.contains l then ("skip" :: (diff_lines base rest).1, (diff_lines base rest).2 + 1)
          else (l :: (diff_lines base rest).1, (diff_lines base rest).2)).2 = _
        rw [if_pos h, List.filter_cons_of_pos h, List.length_cons]
        exact congrArg _ ih.2
    · refine ⟨?_, ?_⟩
      · show (if base.contains l then ("skip" :: (diff_lines base rest).1, (diff_lines base rest).2 + 1)
          else (l :: (diff_lines base rest).1, (diff_lines base rest).2)).1 = _
        rw [if_neg h, List.map_cons, if_neg h]
        exact congrArg _ ih.1
      · show (if base.contains l then ("skip" :: (diff_lines base rest).1, (diff_lines base rest).2 + 1)
          else (l :: (diff_lines base rest).1, (diff_lines base rest).2)).2 = _
        rw [if_neg h, List.filter_cons_of_neg h]
        exact ih.2

/-- Witness for C4: an empty previous body has no marker, so the new report
is stored verbatim with nothing suppressed. -/
theorem c4_snapshot_differencer_witness :
    snapshot_step "" "hello" 0 0 0 = ⟨some "hello", "hello", 0⟩ :=
  c4_snapshot_differencer.1 "" "hello" 0 0 0 (by decide)

/-- C5 counterexample: a 500 response raises inside the `try` of `_get`
(`src/courtlistener.py:73-81`), but the catch-all `except` swallows it, so
the fetch degrades to `None` exactly like a 401 instead of aborting — the
claim's "every other non-success HTTP status raises and aborts that fetch"
is false on the code. -/
theorem c5_counterexample :
    _getTry (.resp 500 (some (.vDict []))) = .error "HTTPError 500"
    ∧ _get (.resp 500 (some (.vDict []))) = none
    ∧ _get (.resp 401 (some (.vDict []))) = none := ⟨rfl, rfl, rfl⟩

/-- C5 (amended): 401/403 responses degrade to no-result without raising,
and every other non-success status (4xx/5xx) is raised by
`raise_for_status` but caught by the same broad handler, so it also
degrades to no-result; successful statuses return the decoded body;
network errors also degrade to no-result.  No status aborts the fetch. -/
theorem c5_amended_all_errors_swallowed :
    ∀ (st : Nat) (b : Option PyVal),
      ((st = 401 ∨ st = 403) → _get (.resp st b) = none)
      ∧ (400 ≤ st ∧ st < 600 → _get (.resp st b) = none)
      ∧ (st < 400 → _get (.resp st b) = b)
      ∧ _get .exn = none := by
  intro st b
  refine ⟨fun h => ?_, fun h => ?_, fun h => ?_, rfl⟩
  · rcases h with h | h <;> subst h <;> rfl
  · by_cases h1 : st = 401 ∨ st = 403
    · rcases h1 with h1 | h1 <;> subst h1 <;> rfl
    · simp [_get, _getTry, raise_for_status, h1, h]
  · have h1 : ¬ (st = 401 ∨ st = 403) := by omega
    have h2 : ¬ (400 ≤ st ∧ st < 600) := by omega
    cases b <;> simp [_get, _getTry, raise_for_status, h1, h2]

/-- Witness for C5 (amended) at status 500, and at a successful status. -/
theorem c5_amended_all_errors_swallowed_witness :
    _get (.resp 500 none) = none ∧ _get (.resp 200 (some (.vStr "ok"))) = some (.vStr "ok") :=
  ⟨(c5_amended_all_errors_swallowed 500 none).2.1 (by decide),
   (c5_amended_all_errors_swallowed 200 (some (.vStr "ok"))).2.2.1 (by decide)⟩

/-- Environment whose collaborators all return empty results (used as a
witness fixture). -/
def envTriv : Env :=
  { http := fun _ _ => .exn
    extract_pdf_text := fun _ _ => ""
    extract_parties_from_caption := fun _ => ("", "")
    detect_causes := fun _ => []
    extract_ai_training_snippet := fun _ => ""
    now_day := 0
    parse_iso_date := fun _ => none
    today_iso := "" }

/-- Environment for the C6 counterexample: docket 5 exists and has one
complaint document whose URL does not look like a PDF, so no text
extraction happens. -/
def env6 : Env :=
  { http := fun url _params =>
      if url = docket_url_for 5 then
        .resp 200 (some (.vDict [("case_name", .vStr "Doe v. AI")]))
      else if url = RECAP_DOCS_URL then
        .resp 200 (some (.vDict [("results", .vList
          [.vDict [("description", .vStr "Complaint"),
                   ("absolute_url", .vStr "/docket/5/1/")]])]))
      else .exn
    extract_pdf_text := fun _ _ => "SHOULD NOT BE CALLED"
    extract_parties_from_caption := fun _ => ("P", "D")
    detect_causes := fun _ => ["cause"]
    extract_ai_training_snippet := fun _ => "snippet"
    now_day := 0
    parse_iso_date := fun _ => none
    today_iso := "2026-01-01" }

/-- C6 counterexample: a Document built without usable full text
(`src/courtlistener.py:200-226`) gets the `"미확인"` sentinel only for the
plaintiff, defendant and causes fields, while the extracted AI-training
snippet and the text snippet are the empty string — so the claim that all
extracted fields carry the sentinel is false on the code. -/
theorem c6_counterexample :
    (build_complaint_documents_from_hits env6 [.vDict [("docket_id", .vInt 5)]] 3).map
        (fun d => (d.extracted_plaintiff, d.extracted_defendant,
          d.extracted_causes, d.extracted_ai_snippet, d.pdf_text_snippet))
      = [("미확인", "미확인", "미확인", "", "")]
    ∧ ("" : String) ≠ "미확인" := by
  exact ⟨rfl, by decide⟩

/-- C6 (amended): when extraction is unavailable (the computed snippet is
empty), the plaintiff, defendant and causes fields fall back to the
`"미확인"` sentinel, while the AI-training snippet and the text snippet
fall back to the empty string. -/
theorem c6_amended_sentinel_fields :
    ∀ (env : Env) (id : Int) (dn cn ct : String) (d : PyVal),
      pdf_snippet env d = "" →
      (build_one_doc env id dn cn ct d).extracted_plaintiff = "미확인"
      ∧ (build_one_doc env id dn cn ct d).extracted_defendant = "미확인"
      ∧ (build_one_doc env id dn cn ct d).extracted_causes = "미확인"
      ∧ (build_one_doc env id dn cn ct d).extracted_ai_snippet = ""
      ∧ (build_one_doc env id dn cn ct d).pdf_text_snippet = "" := by
  intro env id dn cn ct d h
  simp [build_one_doc, h, pyOrS]

/-- Witness for C6 (amended): the trivial environment on an empty raw
document yields an empty snippet and the mixed fallbacks. -/
theorem c6_amended_sentinel_fields_witness :
    (build_one_doc envTriv 1 "" "" "" (.vDict [])).extracted_plaintiff = "미확인"
    ∧ (build_one_doc envTriv 1 "" "" "" (.vDict [])).extracted_ai_snippet = "" :=
  ⟨(c6_amended_sentinel_fields envTriv 1 "" "" "" (.vDict []) rfl).1,
   (c6_amended_sentinel_fields envTriv 1 "" "" "" (.vDict []) rfl).2.2.2.1⟩

/-- C7 counterexample: `_mdlink` (`src/render.py:22-27`) escapes its label
but embeds the URL unescaped, so a pipe inside a document URL appears raw
in the table cell it builds — the claim that every cell, including those
built from document URLs, is free of raw pipes is false on the code. -/
theorem c7_counterexample :
    _mdlink "Document" "http://x|y" = "[Document](http://x|y)"
    ∧ pipeOK ("[Document](http://x|y)").data = false := by
  exact ⟨by decide, by decide⟩

/-- C7 (amended): every string that `_esc` (`src/render.py:8-15`) returns
has all of its pipe characters backslash-escaped, so cells built from
`_esc` output cannot break table structure; only URLs embedded by
`_mdlink` bypass this escaping. -/
theorem c7_amended_esc_escapes_pipes :
    ∀ s : String, pipeOK (_esc s).data = true := by
  intro s
  show pipeOKFrom ' ' (_esc s).data = true
  have hdata : (_esc s).data =
      replaceL ['\n'] ['<', 'b', 'r', '>']
        (replaceL ['|'] ['\\', '|']
          (pyReplace (pyReplace (pyReplace (pyReplace (pyStrip s)
            "\r\n" "\n") "\r" "\n") "```" "&#96;&#96;&#96;")
            "~~~" "&#126;&#126;&#126;").data) := rfl
  rw [hdata, replaceL_single, replaceL_single]
  exact nl_escape_preserves _ ' ' ' ' (fun hc => hc) (pipe_escape_ok _ ' ')

/-- C9: docket-identifier coercion (`src/courtlistener.py:114-128,170-175`)
accepts an int alias as that integer and a digit-string alias as its
numeric value, while garbage or absent aliases yield `None`, making the
record be skipped — the surrounding build returns no document and raises
nothing. -/
theorem c9_docket_id_coercion :
    (∀ (rest : List (String × PyVal)) (n : Int),
        _pick_docket_id (.vDict (("docket_id", .vInt n) :: rest)) = some n)
    ∧ (∀ (rest : List (String × PyVal)) (s : String), pyIsDigitStr s = true →
        _pick_docket_id (.vDict (("docket_id", .vStr s) :: rest))
          = some (digitsToNat s : Int))
    ∧ _pick_docket_id (.vDict [("docket_id", .vStr "garbage")]) = none
    ∧ _pick_docket_id (.vDict []) = none
    ∧ (∀ env : Env, build_complaint_documents_from_hits env
        [.vDict [("docket_id", .vStr "garbage")]] 3 = [])
    ∧ (∀ env : Env, docs_for_hit env (.vDict []) = []) := by
  refine ⟨fun rest n => rfl, fun rest s h => ?_, rfl, rfl, fun env => rfl, fun env => rfl⟩
  simp [_pick_docket_id, pickFrom, vget, dget, h]

/-- Witness for C9: the digit string `"123"` resolves to the integer 123. -/
theorem c9_docket_id_coercion_witness :
    _pick_docket_id (.vDict [("docket_id", .vStr "123")]) = some (123 : Int) :=
  c9_docket_id_coercion.2.1 [] "123" (by decide)

/-- The spec §8 scoring scenario record: an 820 Copyright case whose AI
snippet mentions crawling, training an LLM, commercial use and a class
action. -/
def scenario_case : CLCaseSummary :=
  { mkCase 7 "Scenario" with
    nature_of_suit := "820 Copyright"
    extracted_causes := "미확인"
    extracted_ai_snippet :=
      "used for training an LLM via web crawl, commercial use, class action" }

/-- C10: the risk scorer is a pure function of the record's textual fields
whose result always lies in `[0, 100]`, and whenever the accumulated
keyword-category weights reach the cap the result is exactly 100
(saturation, not wraparound).  Modelled from the spec (§4.4, §8): the
scorer's code is not under `src/`. -/
theorem c10_risk_score_bounded :
    ∀ c : CLCaseSummary,
      0 ≤ risk_score c ∧ risk_score c ≤ 100
      ∧ (100 ≤ raw_risk_score c → risk_score c = 100) := by
  intro c
  refine ⟨Nat.zero_le _, Nat.min_le_right _ _, fun h => ?_⟩
  rw [risk_score, Nat.min_eq_right h]

/-- Witness for C10: the spec §8 scenario accumulates
30 + 30 + 15 + 15 + 10 = 100 and scores exactly 100. -/
theorem c10_risk_score_bounded_witness :
    raw_risk_score scenario_case = 100 ∧ risk_score scenario_case = 100 :=
  ⟨by decide, (c10_risk_score_bounded scenario_case).2.2 (by decide)⟩
